import Mathlib

/-!
Verification development for the Noise-chat motion-synchronized scroll
controller.  The definitions below are shallow embeddings of the
TypeScript sources: `src/utils/safety.ts`, `src/hooks/useIMUMotion.ts`,
`src/services/MotionService.ts` and the calibration service
(`CalibrationService`).  Machine floating-point numbers are modelled by
rationals; timestamps by rationals as well.
-/

namespace NoiseChat

/-- Direction values used throughout the motion subsystem
(TypeScript union type: left, right, stationary). -/
inductive Direction where
  | left
  | right
  | stationary
deriving DecidableEq, Repr

/-- Tempo indicator enum (too-slow / ok / too-fast). -/
inductive TempoIndicator where
  | tooSlow
  | ok
  | tooFast
deriving DecidableEq, Repr

/-- Raw motion sample delivered to data listeners
(`MotionData` in `src/types`). -/
structure MotionData where
  x : ℚ
  y : ℚ
  z : ℚ
  timestamp : ℚ
deriving DecidableEq, Repr

/-- Calibration result record (`CalibrationData` in `src/types`). -/
structure CalibrationData where
  speed : ℚ
  direction : Direction
  timestamp : ℚ
deriving DecidableEq, Repr

/-! Configuration constants from `src/constants/index.ts` (`APP_CONFIG`),
`DISPLAY_CONFIG`, and from `src/hooks/useIMUMotion.ts`. -/

/-- `APP_CONFIG.FLICKER_SAFE_MIN_HZ` (15). -/
def FLICKER_SAFE_MIN_HZ : ℚ := 15

/-- `APP_CONFIG.FLICKER_SAFE_MAX_HZ` (25). -/
def FLICKER_SAFE_MAX_HZ : ℚ := 25

/-- `APP_CONFIG.CALIBRATION_DURATION` in milliseconds (1000). -/
def CALIBRATION_DURATION : ℚ := 1000

/-- `DISPLAY_CONFIG.CHAR_WIDTH` in pixels (20). -/
def CHAR_WIDTH : ℚ := 20

/-! Safety utility, `src/utils/safety.ts`. -/

/-- `MIN_SAFE_FREQUENCY_HZ = APP_CONFIG.FLICKER_SAFE_MIN_HZ` (safety.ts line 12). -/
def MIN_SAFE_FREQUENCY_HZ : ℚ := FLICKER_SAFE_MIN_HZ

/-- `MAX_SAFE_FREQUENCY_HZ = APP_CONFIG.FLICKER_SAFE_MAX_HZ` (safety.ts line 18). -/
def MAX_SAFE_FREQUENCY_HZ : ℚ := FLICKER_SAFE_MAX_HZ

/-- `calculateFrequencyFromDuration` (safety.ts lines 25-28):
0 when the duration is non-positive, otherwise `1000 / durationMs`. -/
def calculateFrequencyFromDuration (durationMs : ℚ) : ℚ :=
  if durationMs ≤ 0 then 0 else 1000 / durationMs

/-- `clampFrequency` (safety.ts lines 63-65):
`Math.max(MIN, Math.min(MAX, hz))`. -/
def clampFrequency (frequencyHz : ℚ) : ℚ :=
  max MIN_SAFE_FREQUENCY_HZ (min MAX_SAFE_FREQUENCY_HZ frequencyHz)

/-- `isFrequencySafe` (safety.ts lines 72-74). -/
def isFrequencySafe (frequencyHz : ℚ) : Bool :=
  MIN_SAFE_FREQUENCY_HZ ≤ frequencyHz ∧ frequencyHz ≤ MAX_SAFE_FREQUENCY_HZ

/-- `calculateSafeAnimationDuration` (safety.ts lines 37-56):
guards non-positive inputs with a 1000 ms default, otherwise converts the
raw duration to a frequency, clamps it into the safe band, and converts
back to a duration. -/
def calculateSafeAnimationDuration
    (distancePixels speedPixelsPerSecond : ℚ) : ℚ :=
  if distancePixels ≤ 0 ∨ speedPixelsPerSecond ≤ 0 then 1000
  else
    let rawDurationMs := distancePixels / speedPixelsPerSecond * 1000
    let frequency := calculateFrequencyFromDuration rawDurationMs
    let safeFrequency := clampFrequency frequency
    1000 / safeFrequency

/-! Scroll Position Driver, `src/hooks/useIMUMotion.ts`.  The hook's React
state plumbing is not modelled; the numeric logic of its callbacks is. -/

/-- `MIN_AUTO_SCROLL_DURATION_MS` (useIMUMotion.ts line 24). -/
def MIN_AUTO_SCROLL_DURATION_MS : ℚ := 200

/-- `MAX_SCROLL_AMOUNT` (useIMUMotion.ts line 29). -/
def MAX_SCROLL_AMOUNT : ℚ := 1000

/-- `BASE_SCROLL_MULTIPLIER` (useIMUMotion.ts line 79). -/
def BASE_SCROLL_MULTIPLIER : ℚ := 15

/-- `textWidth = text.length * DISPLAY_CONFIG.CHAR_WIDTH`
(useIMUMotion.ts line 103). -/
def textWidthOf (textLength : ℕ) : ℚ := textLength * CHAR_WIDTH

/-- Fallback auto-scroll duration (useIMUMotion.ts lines 267-270):
`distance = screenWidth + textWidth`, `rawDuration = distance / 200 * 1000`
(200 px/s), floored at `MIN_AUTO_SCROLL_DURATION_MS`. -/
def autoScrollDuration (screenWidth textWidth : ℚ) : ℚ :=
  max MIN_AUTO_SCROLL_DURATION_MS ((screenWidth + textWidth) / 200 * 1000)

/-- IMU-mode per-sample offset update, `handleMotionData`
(useIMUMotion.ts lines 186-227).  Inputs `velocity` and `motionDirection`
are what `MotionService.getVelocity()` / `getDirection()` return at
callback time; `currentX` is the offset the spring target is computed
from (`translateX.value`).  Returns the clamped spring target.  The
finite-number guard of the source never fires over ℚ, and the display-mode
guard is modelled by only calling this in IMU mode. -/
def handleMotionData (velocity : ℚ) (motionDirection : Direction)
    (textWidth screenWidth currentX : ℚ) : ℚ :=
  if motionDirection = Direction.stationary then currentX
  else
    let rawScrollAmount := velocity * BASE_SCROLL_MULTIPLIER
    let scrollAmount := max (-MAX_SCROLL_AMOUNT) (min MAX_SCROLL_AMOUNT rawScrollAmount)
    let directionMultiplier : ℚ := if motionDirection = Direction.right then -1 else 1
    let newX := currentX + scrollAmount * directionMultiplier
    max (-textWidth) (min screenWidth newX)

/-- Iterated IMU-mode offset updates over a sequence of (velocity,
direction) readings. -/
def runMotion (textWidth screenWidth : ℚ)
    (samples : List (ℚ × Direction)) (startX : ℚ) : ℚ :=
  samples.foldl
    (fun offset s => handleMotionData s.1 s.2 textWidth screenWidth offset)
    startX

/-! Motion Sampler, `src/services/MotionService.ts`.  Callbacks are
modelled by natural-number identities; delivery of a `MotionData` sample
to a data listener is recorded as a `(listener, data)` event.  Haptic and
state-listener broadcast side effects carry no state and are omitted. -/

namespace MotionService

/-- `VELOCITY_SAMPLES` (MotionService.ts line 12). -/
def VELOCITY_SAMPLES : ℕ := 10

/-- `CALIBRATION_THRESHOLD` (MotionService.ts line 13). -/
def CALIBRATION_THRESHOLD : ℚ := 1/2

/-- `TEMPO_SLOW_THRESHOLD` (MotionService.ts line 14). -/
def TEMPO_SLOW_THRESHOLD : ℚ := 2

/-- `TEMPO_FAST_THRESHOLD` (MotionService.ts line 15). -/
def TEMPO_FAST_THRESHOLD : ℚ := 8

/-- Mutable fields of the `MotionService` class (MotionService.ts lines
28-40).  The `subscription` handle is modelled by the Boolean
`subscriptionActive`. -/
structure State where
  listeners : List ℕ
  stateListeners : List ℕ
  subscriptionActive : Bool
  velocityHistory : List ℚ
  lastTimestamp : ℚ
  currentVelocity : ℚ
  currentDirection : Direction
  isCalibrated : Bool
  calibrationData : Option CalibrationData
  hasPermission : Bool
  isAvailable : Bool
deriving DecidableEq, Repr

/-- Raw reading fields consumed by the sensor callback: rotation-rate
gamma and the acceleration components (`|| 0` defaults applied). -/
structure DeviceMotionMeasurement where
  rotationGamma : ℚ
  accelX : ℚ
  accelY : ℚ
  accelZ : ℚ
deriving DecidableEq, Repr

/-- Delta-time computed by the sensor callback (MotionService.ts line
107): seconds since the previous reading, 0 when no previous timestamp
exists. -/
def deltaTimeOf (svc : State) (timestamp : ℚ) : ℚ :=
  if 0 < svc.lastTimestamp then (timestamp - svc.lastTimestamp) / 1000 else 0

/-- Sensor callback registered by `startMonitoring`
(MotionService.ts lines 105-159).  `timestamp` is the `Date.now()` value
at delivery.  Returns the updated service state and the `(listener,
MotionData)` delivery events. -/
def handleDeviceMotion (svc : State) (m : DeviceMotionMeasurement)
    (timestamp : ℚ) : State × List (ℕ × MotionData) :=
  let deltaTime : ℚ := deltaTimeOf svc timestamp
  let svc1 : State := { svc with lastTimestamp := timestamp }
  let svc2 : State :=
    if 0 < deltaTime ∧ deltaTime < 1/10 then
      let velocityEstimate := |m.rotationGamma| + |m.accelX|
      let pushed := svc1.velocityHistory ++ [velocityEstimate]
      let hist := if VELOCITY_SAMPLES < pushed.length then pushed.drop 1 else pushed
      let newVelocity := hist.sum / (hist.length : ℚ)
      let newDirection :=
        if CALIBRATION_THRESHOLD < |m.rotationGamma| then
          (if 0 < m.rotationGamma then Direction.right else Direction.left)
        else Direction.stationary
      let svc3 : State := { svc1 with
        velocityHistory := hist, currentVelocity := newVelocity,
        currentDirection := newDirection }
      if svc3.isCalibrated = false ∧ VELOCITY_SAMPLES ≤ hist.length then
        let avgVelocity := hist.sum / (hist.length : ℚ)
        if CALIBRATION_THRESHOLD < avgVelocity then
          { svc3 with
            calibrationData := some
              ⟨avgVelocity,
               if newDirection = Direction.stationary then Direction.right
               else newDirection,
               timestamp⟩,
            isCalibrated := true }
        else svc3
      else svc3
    else svc1
  let data : MotionData := ⟨m.accelX, m.accelY, m.accelZ, timestamp⟩
  (svc2, svc2.listeners.map fun l => (l, data))

/-- `startMonitoring` (MotionService.ts lines 88-161): no-op for an
already-registered callback; otherwise registers it and, when no
subscription exists yet, resets the per-session state and subscribes. -/
def startMonitoring (svc : State) (callback : ℕ) : State :=
  if callback ∈ svc.listeners then svc
  else
    let svc1 : State := { svc with listeners := svc.listeners ++ [callback] }
    if svc1.subscriptionActive then svc1
    else
      { svc1 with
        velocityHistory := [], lastTimestamp := 0, currentVelocity := 0,
        currentDirection := Direction.stationary, isCalibrated := false,
        subscriptionActive := true }

/-- `stopMonitoring` (MotionService.ts lines 249-261): removes the
subscription and clears listeners and history.  `calibrationData` is not
touched by the source and is therefore preserved here. -/
def stopMonitoring (svc : State) : State :=
  { svc with
    subscriptionActive := false, listeners := [], stateListeners := [],
    velocityHistory := [], lastTimestamp := 0, currentVelocity := 0,
    currentDirection := Direction.stationary, isCalibrated := false }

end MotionService

/-! Calibration Controller, `CalibrationService` (tempo calibration
service with haptic metronome).  Timer handles are modelled by Booleans:
`calibrationTimeoutPending` for the pending `setTimeout`,
`metronomeActive` for the metronome `setInterval`. -/

/-- `CalibrationState` interface of the calibration service. -/
structure CalibrationState where
  isCalibrating : Bool
  isCalibrated : Bool
  progress : ℚ
  calibrationData : Option CalibrationData
  tempoIndicator : TempoIndicator
  metronomeEnabled : Bool
deriving DecidableEq, Repr

/-- Mutable fields of the `CalibrationService` class. -/
structure CalibrationService where
  state : CalibrationState
  listeners : List ℕ
  metronomeActive : Bool
  calibrationTimeoutPending : Bool
  velocitySamples : List ℚ
deriving DecidableEq, Repr

namespace CalibrationService

/-- `SAMPLES_NEEDED` (10). -/
def SAMPLES_NEEDED : ℕ := 10

/-- `VELOCITY_THRESHOLD` (0.5). -/
def VELOCITY_THRESHOLD : ℚ := 1/2

/-- `TEMPO_SLOW_THRESHOLD` (2.0). -/
def TEMPO_SLOW_THRESHOLD : ℚ := 2

/-- `TEMPO_FAST_THRESHOLD` (8.0). -/
def TEMPO_FAST_THRESHOLD : ℚ := 8

/-- Field initializers of `new CalibrationService()`. -/
def initial : CalibrationService :=
  ⟨⟨false, false, 0, none, TempoIndicator.tooSlow, true⟩, [], false, false, []⟩

/-- `calculateTempoIndicator`: strict thresholds, closed on the ok side. -/
def calculateTempoIndicator (velocity : ℚ) : TempoIndicator :=
  if velocity < TEMPO_SLOW_THRESHOLD then TempoIndicator.tooSlow
  else if TEMPO_FAST_THRESHOLD < velocity then TempoIndicator.tooFast
  else TempoIndicator.ok

/-- `getAverageVelocity`: 0 for an empty sample buffer, else the mean. -/
def getAverageVelocity (svc : CalibrationService) : ℚ :=
  if svc.velocitySamples.length = 0 then 0
  else svc.velocitySamples.sum / (svc.velocitySamples.length : ℚ)

/-- `startMetronome`: no-op when the interval already runs. -/
def startMetronome (svc : CalibrationService) : CalibrationService :=
  if svc.metronomeActive then svc else { svc with metronomeActive := true }

/-- `stopMetronome`: clears the metronome interval. -/
def stopMetronome (svc : CalibrationService) : CalibrationService :=
  { svc with metronomeActive := false }

/-- `completeCalibration(direction = 'right')`: clears the pending
timeout, stops the metronome, snapshots `CalibrationData` from the
average velocity (direction defaulted to right when stationary), and
marks the state calibrated with progress 1.  `now` is `Date.now()`. -/
def completeCalibration (direction : Direction) (now : ℚ)
    (svc : CalibrationService) : CalibrationService :=
  let svc1 := stopMetronome { svc with calibrationTimeoutPending := false }
  let avgVelocity := getAverageVelocity svc1
  let data : CalibrationData :=
    ⟨avgVelocity,
     if direction = Direction.stationary then Direction.right else direction,
     now⟩
  { svc1 with state := { svc1.state with
      isCalibrating := false, isCalibrated := true, progress := 1,
      calibrationData := some data,
      tempoIndicator := calculateTempoIndicator avgVelocity } }

/-- `startCalibration`: no-op while calibrating; otherwise clears the
sample buffer, enters the calibrating state with `calibrationData`
nulled, starts the metronome when enabled, and schedules the
completion timeout. -/
def startCalibration (svc : CalibrationService) : CalibrationService :=
  if svc.state.isCalibrating then svc
  else
    let svc1 : CalibrationService := { svc with
      velocitySamples := [],
      state := { svc.state with
        isCalibrating := true, isCalibrated := false, progress := 0,
        calibrationData := none } }
    let svc2 := if svc1.state.metronomeEnabled then startMetronome svc1 else svc1
    { svc2 with calibrationTimeoutPending := true }

/-- `addVelocitySample(velocity, direction)`: no-op unless calibrating;
appends the sample, updates progress and the live tempo indicator, and
completes early once `SAMPLES_NEEDED` samples exist with average above
`VELOCITY_THRESHOLD`. -/
def addVelocitySample (velocity : ℚ) (direction : Direction) (now : ℚ)
    (svc : CalibrationService) : CalibrationService :=
  if svc.state.isCalibrating then
    let svc1 : CalibrationService :=
      { svc with velocitySamples := svc.velocitySamples ++ [velocity] }
    let progress :=
      min ((svc1.velocitySamples.length : ℚ) / (SAMPLES_NEEDED : ℚ)) 1
    let svc2 : CalibrationService := { svc1 with state := { svc1.state with
        progress := progress,
        tempoIndicator := calculateTempoIndicator velocity } }
    if SAMPLES_NEEDED ≤ svc2.velocitySamples.length ∧
        VELOCITY_THRESHOLD < getAverageVelocity svc2 then
      completeCalibration direction now svc2
    else svc2
  else svc

/-- Firing of the `setTimeout` scheduled by `startCalibration`: when
still pending it runs `completeCalibration()` with the default
direction. -/
def fireCalibrationTimeout (now : ℚ) (svc : CalibrationService) :
    CalibrationService :=
  if svc.calibrationTimeoutPending then
    completeCalibration Direction.right now svc
  else svc

/-- Sequential delivery of (velocity, direction) samples to
`addVelocitySample`, as `handleStateUpdate` in `useIMUMotion` does while
calibrating. -/
def feedSamples (samples : List (ℚ × Direction)) (now : ℚ)
    (svc : CalibrationService) : CalibrationService :=
  samples.foldl (fun s p => addVelocitySample p.1 p.2 now s) svc

/-- `stopCalibration`: clears the timeout, stops the metronome, empties
the sample buffer, and leaves the calibrating state with progress 0. -/
def stopCalibration (svc : CalibrationService) : CalibrationService :=
  let svc1 := stopMetronome { svc with calibrationTimeoutPending := false }
  let svc2 : CalibrationService := { svc1 with velocitySamples := [] }
  { svc2 with state := { svc2.state with isCalibrating := false, progress := 0 } }

/-- `reset`: `stopCalibration` followed by a full state reset that keeps
only `metronomeEnabled`. -/
def reset (svc : CalibrationService) : CalibrationService :=
  let svc1 := stopCalibration svc
  { svc1 with state :=
      ⟨false, false, 0, none, TempoIndicator.tooSlow, svc1.state.metronomeEnabled⟩ }

end CalibrationService

/-! Helper lemmas about the safety utility, shared by several claims. -/

/-- Clamped frequencies never fall below the 15 Hz floor. -/
lemma le_clampFrequency (f : ℚ) : 15 ≤ clampFrequency f := by
  unfold clampFrequency MIN_SAFE_FREQUENCY_HZ FLICKER_SAFE_MIN_HZ
  exact le_max_left _ _

/-- Clamped frequencies never exceed the 25 Hz ceiling. -/
lemma clampFrequency_le (f : ℚ) : clampFrequency f ≤ 25 := by
  unfold clampFrequency MIN_SAFE_FREQUENCY_HZ MAX_SAFE_FREQUENCY_HZ
    FLICKER_SAFE_MIN_HZ FLICKER_SAFE_MAX_HZ
  exact max_le (by norm_num) (min_le_left _ _)

/-- Clamped frequencies are strictly positive. -/
lemma clampFrequency_pos (f : ℚ) : 0 < clampFrequency f :=
  lt_of_lt_of_le (by norm_num) (le_clampFrequency f)

/-- For positive inputs, `calculateSafeAnimationDuration` equals 1000
divided by the clamped frequency of the raw duration. -/
lemma calculateSafeAnimationDuration_pos_eq (d s : ℚ) (hd : 0 < d) (hs : 0 < s) :
    calculateSafeAnimationDuration d s =
      1000 / clampFrequency (calculateFrequencyFromDuration (d / s * 1000)) := by
  have hnot : ¬(d ≤ 0 ∨ s ≤ 0) := by push_neg; exact ⟨hd, hs⟩
  simp only [calculateSafeAnimationDuration, if_neg hnot]

/-- For positive inputs, the frequency of the safe duration is exactly
the clamped frequency, hence lies in the [15, 25] band. -/
lemma safeDuration_band_aux (d s : ℚ) (hd : 0 < d) (hs : 0 < s) :
    15 ≤ calculateFrequencyFromDuration (calculateSafeAnimationDuration d s) ∧
    calculateFrequencyFromDuration (calculateSafeAnimationDuration d s) ≤ 25 := by
  rw [calculateSafeAnimationDuration_pos_eq d s hd hs]
  set c := clampFrequency (calculateFrequencyFromDuration (d / s * 1000)) with hc
  have hcpos : 0 < c := clampFrequency_pos _
  have hdurpos : 0 < 1000 / c := by positivity
  rw [calculateFrequencyFromDuration, if_neg (not_le.mpr hdurpos),
    div_div_eq_mul_div, mul_comm, mul_div_assoc,
    div_self (by norm_num : (1000 : ℚ) ≠ 0), mul_one]
  exact ⟨le_clampFrequency _, clampFrequency_le _⟩

/-- `calculateSafeAnimationDuration` always returns a strictly positive
duration. -/
lemma calculateSafeAnimationDuration_pos (d s : ℚ) :
    0 < calculateSafeAnimationDuration d s := by
  simp only [calculateSafeAnimationDuration]
  split
  · norm_num
  · exact div_pos (by norm_num) (clampFrequency_pos _)

/-! Claim C1.  The spec asserts that the fallback auto-scroll sweep
duration of the Scroll Position Driver has its effective frequency
clamped into [15, 25] Hz.  The source computes
`max(200, (screenWidth + textWidth) / 200 * 1000)` with no frequency
clamp, so the applied frequency is at most 5 Hz. -/

/-- C1 (counterexample).  With screenWidth 400 and a 10-character text
(textWidth 200), the fallback sweep duration actually applied is
3000 ms, whose effective frequency 1000/3000 = 1/3 Hz lies outside the
flicker-safe band [15, 25] Hz claimed by the spec. -/
theorem autoScroll_frequency_outside_band_at_400_200 :
    autoScrollDuration 400 (textWidthOf 10) = 3000 ∧
    ¬(15 ≤ calculateFrequencyFromDuration (autoScrollDuration 400 (textWidthOf 10)) ∧
      calculateFrequencyFromDuration (autoScrollDuration 400 (textWidthOf 10)) ≤ 25) := by
  norm_num [autoScrollDuration, textWidthOf, CHAR_WIDTH,
    MIN_AUTO_SCROLL_DURATION_MS, calculateFrequencyFromDuration]

/-- C1 (amended).  The fallback auto-scroll duration computed in
`useIMUMotion` is `(screenWidth + textWidth) / 200 * 1000` floored at
200 ms; it is always ≥ 200 ms and strictly positive, and its effective
animation frequency `1000/durationMs` is therefore at most 5 Hz — the
fallback sweep is not clamped into the [15, 25] Hz band; that clamp
applies only to durations produced by `calculateSafeAnimationDuration`. -/
theorem autoScrollDuration_floor_and_low_frequency (screenWidth textWidth : ℚ) :
    200 ≤ autoScrollDuration screenWidth textWidth ∧
    0 < autoScrollDuration screenWidth textWidth ∧
    calculateFrequencyFromDuration (autoScrollDuration screenWidth textWidth) ≤ 5 := by
  have h200 : (200 : ℚ) ≤ autoScrollDuration screenWidth textWidth := by
    unfold autoScrollDuration MIN_AUTO_SCROLL_DURATION_MS
    exact le_max_left _ _
  have hpos : 0 < autoScrollDuration screenWidth textWidth :=
    lt_of_lt_of_le (by norm_num) h200
  refine ⟨h200, hpos, ?_⟩
  rw [calculateFrequencyFromDuration, if_neg (not_le.mpr hpos),
    div_le_iff₀ hpos]
  linarith

/-! Claim C2.  Frequency clamp property of the safety utility. -/

/-- C2.  For every distance > 0 and speed > 0, the frequency of
`calculateSafeAnimationDuration distance speed` lies in [15, 25] Hz
inclusive. -/
theorem safeDuration_frequency_in_band (distance speed : ℚ)
    (hd : 0 < distance) (hs : 0 < speed) :
    15 ≤ calculateFrequencyFromDuration
        (calculateSafeAnimationDuration distance speed) ∧
    calculateFrequencyFromDuration
        (calculateSafeAnimationDuration distance speed) ≤ 25 :=
  safeDuration_band_aux distance speed hd hs

/-- C2 (witness).  The band membership at distance 600 px, speed
200 px/s, where the raw duration 3000 ms would have frequency 1/3 Hz
and gets clamped up to 15 Hz. -/
theorem safeDuration_frequency_in_band_witness :
    15 ≤ calculateFrequencyFromDuration (calculateSafeAnimationDuration 600 200) ∧
    calculateFrequencyFromDuration (calculateSafeAnimationDuration 600 200) ≤ 25 :=
  safeDuration_frequency_in_band 600 200 (by norm_num) (by norm_num)

/-! Claim C3.  The spec asserts that `calculateSafeAnimationDuration`
returns a positive finite duration whose frequency is always within the
safe band, including the 1000 ms guard branch for non-positive inputs.
The guard branch returns 1000 ms, whose frequency is 1 Hz — outside
[15, 25]. -/

/-- C3 (counterexample).  At input (0, 200) the guard branch returns
1000 ms, whose frequency 1000/1000 = 1 Hz is not in the safe band
[15, 25] Hz, contradicting the claim for the guard branch. -/
theorem safeDuration_guard_frequency_outside_band :
    calculateSafeAnimationDuration 0 200 = 1000 ∧
    ¬(15 ≤ calculateFrequencyFromDuration (calculateSafeAnimationDuration 0 200) ∧
      calculateFrequencyFromDuration (calculateSafeAnimationDuration 0 200) ≤ 25) := by
  norm_num [calculateSafeAnimationDuration, calculateFrequencyFromDuration]

/-- C3 (amended).  `calculateSafeAnimationDuration` always returns a
duration strictly greater than 0 (finiteness is inherent to the
rational model); on the non-positive guard branch it returns exactly
the 1000 ms default, whose frequency 1 Hz is outside the safe band; for
positive inputs the corresponding frequency lies within [15, 25] Hz. -/
theorem safeDuration_positive_and_band_for_positive_inputs
    (distance speed : ℚ) :
    0 < calculateSafeAnimationDuration distance speed ∧
    ((distance ≤ 0 ∨ speed ≤ 0) →
      calculateSafeAnimationDuration distance speed = 1000) ∧
    (0 < distance → 0 < speed →
      15 ≤ calculateFrequencyFromDuration
          (calculateSafeAnimationDuration distance speed) ∧
      calculateFrequencyFromDuration
          (calculateSafeAnimationDuration distance speed) ≤ 25) := by
  refine ⟨calculateSafeAnimationDuration_pos distance speed, ?_, ?_⟩
  · intro h
    simp only [calculateSafeAnimationDuration, if_pos h]
  · exact safeDuration_band_aux distance speed

/-- One IMU-mode update keeps the spring target inside the travel
bounds whenever the current offset is inside them. -/
lemma handleMotionData_mem_Icc (velocity : ℚ) (dir : Direction)
    (textWidth screenWidth currentX : ℚ)
    (hlo : -textWidth ≤ currentX) (hhi : currentX ≤ screenWidth) :
    -textWidth ≤ handleMotionData velocity dir textWidth screenWidth currentX ∧
    handleMotionData velocity dir textWidth screenWidth currentX ≤ screenWidth := by
  simp only [handleMotionData]
  split
  · exact ⟨hlo, hhi⟩
  · exact ⟨le_max_left _ _, max_le (le_trans hlo hhi) (min_le_left _ _)⟩

/-- C4.  In IMU mode, starting from any offset within
[-textWidth, screenWidth] (textWidth = text.length × CHAR_WIDTH), the
scroll-offset target written by `handleMotionData` stays within
[-textWidth, screenWidth] across any sequence of motion samples. -/
theorem runMotion_offset_stays_clamped (textLength : ℕ) (screenWidth : ℚ)
    (samples : List (ℚ × Direction)) (startX : ℚ)
    (hlo : -textWidthOf textLength ≤ startX) (hhi : startX ≤ screenWidth) :
    -textWidthOf textLength ≤
      runMotion (textWidthOf textLength) screenWidth samples startX ∧
    runMotion (textWidthOf textLength) screenWidth samples startX ≤
      screenWidth := by
  induction samples generalizing startX with
  | nil => exact ⟨hlo, hhi⟩
  | cons s rest ih =>
    simp only [runMotion, List.foldl_cons] at *
    have h := handleMotionData_mem_Icc s.1 s.2 (textWidthOf textLength)
      screenWidth startX hlo hhi
    exact ih _ h.1 h.2

/-- C4 (witness).  A 10-character text (textWidth 200) on a 400 px
screen, starting at offset 0, driven by a spike to the right, a slow
move left, and a stationary sample: the offset target stays inside
[-200, 400]. -/
theorem runMotion_offset_stays_clamped_witness :
    -textWidthOf 10 ≤
      runMotion (textWidthOf 10) 400
        [(100, Direction.right), (2, Direction.left), (0, Direction.stationary)] 0 ∧
    runMotion (textWidthOf 10) 400
        [(100, Direction.right), (2, Direction.left), (0, Direction.stationary)] 0 ≤
      400 :=
  runMotion_offset_stays_clamped 10 400
    [(100, Direction.right), (2, Direction.left), (0, Direction.stationary)] 0
    (by norm_num [textWidthOf, CHAR_WIDTH]) (by norm_num)

/-- C3 (witness).  The amended claim evaluated at the guard input
(0, 200): the returned duration is positive and equals the 1000 ms
default. -/
theorem safeDuration_positive_witness :
    0 < calculateSafeAnimationDuration 0 200 ∧
    calculateSafeAnimationDuration 0 200 = 1000 :=
  ⟨(safeDuration_positive_and_band_for_positive_inputs 0 200).1,
   (safeDuration_positive_and_band_for_positive_inputs 0 200).2.1 (Or.inl le_rfl)⟩

/-! Claim C7.  Discarded samples (delta-time ≤ 0 or ≥ 0.1 s) leave the
derived velocity state untouched but are still delivered raw. -/

/-- C7.  For any raw reading whose computed delta-time is ≤ 0 or
≥ 0.1 s, the sensor callback leaves `velocityHistory`,
`currentVelocity` and `currentDirection` (and all other fields)
unchanged except for advancing `lastTimestamp`, and still delivers the
raw `MotionData` sample to every registered data listener. -/
theorem discarded_sample_preserves_derived_state (svc : MotionService.State)
    (m : MotionService.DeviceMotionMeasurement) (timestamp : ℚ)
    (h : MotionService.deltaTimeOf svc timestamp ≤ 0 ∨
         1/10 ≤ MotionService.deltaTimeOf svc timestamp) :
    MotionService.handleDeviceMotion svc m timestamp =
      ({ svc with lastTimestamp := timestamp },
       svc.listeners.map fun l => (l, ⟨m.accelX, m.accelY, m.accelZ, timestamp⟩)) := by
  have hnot : ¬(0 < MotionService.deltaTimeOf svc timestamp ∧
      MotionService.deltaTimeOf svc timestamp < 1/10) := by
    rcases h with h | h
    · exact fun hc => absurd hc.1 (not_lt.mpr h)
    · exact fun hc => absurd hc.2 (not_lt.mpr h)
  simp only [MotionService.handleDeviceMotion, if_neg hnot]

/-- C7 (witness).  A service whose previous timestamp is 500 ms
receives a reading at 700 ms: the 0.2 s delta-time is out of range, so
only the timestamp advances and the single listener (id 7) still
receives the raw sample. -/
theorem discarded_sample_witness :
    MotionService.handleDeviceMotion
        ⟨[7], [], true, [3], 500, 3, Direction.left, false, none, false, false⟩
        ⟨1, 2, 3, 4⟩ 700 =
      (⟨[7], [], true, [3], 700, 3, Direction.left, false, none, false, false⟩,
       [(7, ⟨2, 3, 4, 700⟩)]) :=
  discarded_sample_preserves_derived_state _ _ _
    (Or.inr (by norm_num [MotionService.deltaTimeOf]))

/-! Claim C8.  Idempotent lifecycle of the Motion Sampler. -/

/-- Registering a callback makes it a member of the listener list. -/
lemma mem_startMonitoring_self (svc : MotionService.State) (cb : ℕ) :
    cb ∈ (MotionService.startMonitoring svc cb).listeners := by
  simp only [MotionService.startMonitoring]
  split
  · assumption
  · split <;> simp

/-- For an unregistered callback, `startMonitoring` appends it. -/
lemma startMonitoring_listeners_of_not_mem (svc : MotionService.State)
    (cb : ℕ) (h : cb ∉ svc.listeners) :
    (MotionService.startMonitoring svc cb).listeners = svc.listeners ++ [cb] := by
  simp only [MotionService.startMonitoring, if_neg h]
  split <;> rfl

/-- C8.  Calling `startMonitoring` twice with the same callback is a
no-op on the second call and, starting from a state not containing the
callback, registers exactly one data listener; `stopMonitoring` twice
equals `stopMonitoring` once and leaves zero data listeners, zero state
listeners, and no sensor subscription. -/
theorem start_stop_monitoring_idempotent (svc : MotionService.State) (cb : ℕ) :
    MotionService.startMonitoring (MotionService.startMonitoring svc cb) cb =
      MotionService.startMonitoring svc cb ∧
    (cb ∉ svc.listeners →
      (MotionService.startMonitoring
        (MotionService.startMonitoring svc cb) cb).listeners.count cb = 1) ∧
    MotionService.stopMonitoring (MotionService.stopMonitoring svc) =
      MotionService.stopMonitoring svc ∧
    (MotionService.stopMonitoring svc).listeners = [] ∧
    (MotionService.stopMonitoring svc).stateListeners = [] ∧
    (MotionService.stopMonitoring svc).subscriptionActive = false := by
  have hidem : MotionService.startMonitoring
      (MotionService.startMonitoring svc cb) cb =
      MotionService.startMonitoring svc cb := by
    rw [MotionService.startMonitoring,
      if_pos (mem_startMonitoring_self svc cb)]
  refine ⟨hidem, ?_, rfl, rfl, rfl, rfl⟩
  intro hnot
  rw [hidem, startMonitoring_listeners_of_not_mem svc cb hnot]
  simp [List.count_append, List.count_eq_zero.mpr hnot]

/-- C8 (witness).  From a fresh service, two `startMonitoring` calls
with callback 5 leave exactly one registered data listener, and double
`stopMonitoring` equals a single one. -/
theorem start_stop_monitoring_idempotent_witness :
    (MotionService.startMonitoring
      (MotionService.startMonitoring
        ⟨[], [], false, [], 0, 0, Direction.stationary, false, none, false, false⟩ 5)
      5).listeners.count 5 = 1 ∧
    MotionService.stopMonitoring (MotionService.stopMonitoring
      ⟨[], [], false, [], 0, 0, Direction.stationary, false, none, false, false⟩) =
    MotionService.stopMonitoring
      ⟨[], [], false, [], 0, 0, Direction.stationary, false, none, false, false⟩ :=
  ⟨(start_stop_monitoring_idempotent
      ⟨[], [], false, [], 0, 0, Direction.stationary, false, none, false, false⟩ 5).2.1
      (by decide),
   (start_stop_monitoring_idempotent
      ⟨[], [], false, [], 0, 0, Direction.stationary, false, none, false, false⟩ 5).2.2.1⟩

/-! Claim C10.  The first raw reading of a new monitoring session only
advances the timestamp. -/

/-- C10.  When monitoring (re)starts for a new session the
last-timestamp is reset to 0, and a reading arriving with
last-timestamp 0 computes delta-time 0, fails the `deltaTime > 0` gate,
and therefore changes nothing but the stored timestamp while still
delivering the raw sample; velocity and direction can change only from
the second reading onward. -/
theorem first_reading_only_advances_timestamp (svc : MotionService.State)
    (cb : ℕ) (m : MotionService.DeviceMotionMeasurement) (timestamp : ℚ) :
    (svc.subscriptionActive = false → cb ∉ svc.listeners →
      (MotionService.startMonitoring svc cb).lastTimestamp = 0) ∧
    (svc.lastTimestamp = 0 →
      MotionService.handleDeviceMotion svc m timestamp =
        ({ svc with lastTimestamp := timestamp },
         svc.listeners.map fun l => (l, ⟨m.accelX, m.accelY, m.accelZ, timestamp⟩))) := by
  constructor
  · intro h1 h2
    simp only [MotionService.startMonitoring, if_neg h2]
    simp [h1]
  · intro h0
    have hnot : ¬(0 < MotionService.deltaTimeOf svc timestamp ∧
        MotionService.deltaTimeOf svc timestamp < 1/10) := by
      simp [MotionService.deltaTimeOf, h0]
    simp only [MotionService.handleDeviceMotion, if_neg hnot]

/-- C10 (witness).  Starting monitoring on an inactive service resets
the timestamp to 0, and a fresh-session reading at timestamp 100 only
stores the timestamp while delivering the raw sample to listener 4. -/
theorem first_reading_only_advances_timestamp_witness :
    (MotionService.startMonitoring
      ⟨[], [], false, [], 55, 7, Direction.left, true, none, false, false⟩
      3).lastTimestamp = 0 ∧
    MotionService.handleDeviceMotion
        ⟨[4], [], true, [2], 0, 2, Direction.right, false, none, false, false⟩
        ⟨9, 8, 7, 6⟩ 100 =
      (⟨[4], [], true, [2], 100, 2, Direction.right, false, none, false, false⟩,
       [(4, ⟨8, 7, 6, 100⟩)]) :=
  ⟨(first_reading_only_advances_timestamp
      ⟨[], [], false, [], 55, 7, Direction.left, true, none, false, false⟩
      3 ⟨0, 0, 0, 0⟩ 0).1 rfl (by decide),
   (first_reading_only_advances_timestamp
      ⟨[4], [], true, [2], 0, 2, Direction.right, false, none, false, false⟩
      3 ⟨9, 8, 7, 6⟩ 100).2 rfl⟩

/-! Claim C9.  `stopCalibration` leaves completed-calibration data in
place; only `startCalibration` (when it actually starts) or `reset`
clear it. -/

/-- C9.  `stopCalibration` clears the pending timeout, stops the
metronome, empties the sample buffer and sets isCalibrating = false
with progress 0, while leaving `isCalibrated` and `calibrationData`
(and every other field) unchanged; a subsequent `startCalibration`
nulls `calibrationData`, as does `reset`. -/
theorem stopCalibration_preserves_calibration_data (svc : CalibrationService) :
    CalibrationService.stopCalibration svc =
      { svc with
        calibrationTimeoutPending := false,
        metronomeActive := false,
        velocitySamples := [],
        state := { svc.state with isCalibrating := false, progress := 0 } } ∧
    (CalibrationService.startCalibration
        (CalibrationService.stopCalibration svc)).state.calibrationData = none ∧
    (CalibrationService.reset svc).state.calibrationData = none := by
  refine ⟨rfl, ?_, rfl⟩
  cases hm : svc.state.metronomeEnabled <;>
    simp [CalibrationService.startCalibration, CalibrationService.startMetronome,
      CalibrationService.stopCalibration, CalibrationService.stopMetronome, hm]

/-! Claim C6.  The calibration timeout path completes with defaulted
direction and the average of the collected samples. -/

/-- C6.  When the calibration timeout fires while still pending, the
service completes calibration: `isCalibrated` becomes true (and
`isCalibrating` false, progress 1) with direction defaulted to right
and speed equal to the average of the collected velocity samples,
which is 0 when no samples were collected. -/
theorem calibrationTimeout_completes_with_defaults (svc : CalibrationService)
    (now : ℚ) (hp : svc.calibrationTimeoutPending = true) :
    (CalibrationService.fireCalibrationTimeout now svc).state.isCalibrated = true ∧
    (CalibrationService.fireCalibrationTimeout now svc).state.isCalibrating = false ∧
    (CalibrationService.fireCalibrationTimeout now svc).state.progress = 1 ∧
    (CalibrationService.fireCalibrationTimeout now svc).state.calibrationData =
      some ⟨CalibrationService.getAverageVelocity svc, Direction.right, now⟩ ∧
    (svc.velocitySamples = [] →
      CalibrationService.getAverageVelocity svc = 0) := by
  have hfire : CalibrationService.fireCalibrationTimeout now svc =
      CalibrationService.completeCalibration Direction.right now svc := by
    simp [CalibrationService.fireCalibrationTimeout, hp]
  rw [hfire]
  refine ⟨rfl, rfl, rfl, rfl, ?_⟩
  intro h
  simp [CalibrationService.getAverageVelocity, h]

/-- C6 (witness).  A freshly started calibration that received no
samples: firing the timeout at time 42 completes it with speed 0 and
direction right. -/
theorem calibrationTimeout_completes_witness :
    (CalibrationService.fireCalibrationTimeout 42
      ⟨⟨false, false, 0, none, TempoIndicator.tooSlow, true⟩, [], false, true, []⟩
      ).state.isCalibrated = true ∧
    (CalibrationService.fireCalibrationTimeout 42
      ⟨⟨false, false, 0, none, TempoIndicator.tooSlow, true⟩, [], false, true, []⟩
      ).state.calibrationData = some ⟨0, Direction.right, 42⟩ :=
  ⟨(calibrationTimeout_completes_with_defaults
      ⟨⟨false, false, 0, none, TempoIndicator.tooSlow, true⟩, [], false, true, []⟩
      42 rfl).1,
   (calibrationTimeout_completes_with_defaults
      ⟨⟨false, false, 0, none, TempoIndicator.tooSlow, true⟩, [], false, true, []⟩
      42 rfl).2.2.2.1⟩

/-! Claim C5.  Early completion on the tenth velocity sample. -/

/-- Unfolding of `startCalibration` from a non-calibrating state. -/
lemma startCalibration_eq (svc : CalibrationService)
    (h : svc.state.isCalibrating = false) :
    CalibrationService.startCalibration svc =
      { svc with
        velocitySamples := [],
        metronomeActive :=
          if svc.state.metronomeEnabled then true else svc.metronomeActive,
        calibrationTimeoutPending := true,
        state := { svc.state with
          isCalibrating := true, isCalibrated := false, progress := 0,
          calibrationData := none } } := by
  cases hm : svc.state.metronomeEnabled <;>
    cases ha : svc.metronomeActive <;>
      simp [CalibrationService.startCalibration,
        CalibrationService.startMetronome, h, hm, ha]

/-- C5.  Starting calibration and then feeding ten velocity samples of
1.0: after nine samples the service is still calibrating with the
completion timeout pending; the tenth sample completes calibration
immediately — pre-empting the timeout — with isCalibrating = false,
isCalibrated = true, progress = 1, speed 1.0, and the triggering
sample's direction (defaulted to right if stationary). -/
theorem calibration_early_completes_on_tenth_sample
    (svc : CalibrationService) (d : Direction) (now : ℚ)
    (h : svc.state.isCalibrating = false) :
    (CalibrationService.feedSamples
        [(1, d), (1, d), (1, d), (1, d), (1, d), (1, d), (1, d), (1, d), (1, d)]
        now (CalibrationService.startCalibration svc)).state.isCalibrating = true ∧
    (CalibrationService.feedSamples
        [(1, d), (1, d), (1, d), (1, d), (1, d), (1, d), (1, d), (1, d), (1, d)]
        now (CalibrationService.startCalibration svc)).calibrationTimeoutPending = true ∧
    (CalibrationService.feedSamples
        [(1, d), (1, d), (1, d), (1, d), (1, d), (1, d), (1, d), (1, d), (1, d), (1, d)]
        now (CalibrationService.startCalibration svc)).state.isCalibrating = false ∧
    (CalibrationService.feedSamples
        [(1, d), (1, d), (1, d), (1, d), (1, d), (1, d), (1, d), (1, d), (1, d), (1, d)]
        now (CalibrationService.startCalibration svc)).state.isCalibrated = true ∧
    (CalibrationService.feedSamples
        [(1, d), (1, d), (1, d), (1, d), (1, d), (1, d), (1, d), (1, d), (1, d), (1, d)]
        now (CalibrationService.startCalibration svc)).state.progress = 1 ∧
    (CalibrationService.feedSamples
        [(1, d), (1, d), (1, d), (1, d), (1, d), (1, d), (1, d), (1, d), (1, d), (1, d)]
        now (CalibrationService.startCalibration svc)).calibrationTimeoutPending = false ∧
    (CalibrationService.feedSamples
        [(1, d), (1, d), (1, d), (1, d), (1, d), (1, d), (1, d), (1, d), (1, d), (1, d)]
        now (CalibrationService.startCalibration svc)).state.calibrationData =
      some ⟨1, if d = Direction.stationary then Direction.right else d, now⟩ := by
  rw [startCalibration_eq svc h]
  norm_num [CalibrationService.feedSamples, CalibrationService.addVelocitySample,
    CalibrationService.completeCalibration, CalibrationService.getAverageVelocity,
    CalibrationService.stopMetronome, CalibrationService.calculateTempoIndicator,
    CalibrationService.SAMPLES_NEEDED, CalibrationService.VELOCITY_THRESHOLD,
    CalibrationService.TEMPO_SLOW_THRESHOLD, CalibrationService.TEMPO_FAST_THRESHOLD]

/-- C5 (witness).  From the freshly constructed service, feeding ten
right-direction samples of 1.0 at time 7 yields a completed calibration
with speed 1.0 and direction right. -/
theorem calibration_early_completes_witness :
    (CalibrationService.feedSamples
        [(1, Direction.right), (1, Direction.right), (1, Direction.right),
         (1, Direction.right), (1, Direction.right), (1, Direction.right),
         (1, Direction.right), (1, Direction.right), (1, Direction.right),
         (1, Direction.right)]
        7 (CalibrationService.startCalibration CalibrationService.initial)
      ).state.isCalibrated = true ∧
    (CalibrationService.feedSamples
        [(1, Direction.right), (1, Direction.right), (1, Direction.right),
         (1, Direction.right), (1, Direction.right), (1, Direction.right),
         (1, Direction.right), (1, Direction.right), (1, Direction.right),
         (1, Direction.right)]
        7 (CalibrationService.startCalibration CalibrationService.initial)
      ).state.calibrationData = some ⟨1, Direction.right, 7⟩ :=
  ⟨(calibration_early_completes_on_tenth_sample
      CalibrationService.initial Direction.right 7 rfl).2.2.2.1,
   (calibration_early_completes_on_tenth_sample
      CalibrationService.initial Direction.right 7 rfl).2.2.2.2.2.2⟩

end NoiseChat
